import Mathlib

set_option maxRecDepth 8000

/-! Shallow embedding of the Quazaa discovery-services manager
(src/Quazaa/Discovery/discovery.cpp).

Machine integers are modelled as Nat with explicit reduction modulo
2^8 / 2^16 / 2^32 at the points where the C++ types (quint8 / quint16 /
quint32) can overflow.  External collaborators that are not part of the
repository sources (QUrl, QFile, the per-service record serializer
CDiscoveryService::save/load, the settings object and the constants of
discovery.h) are modelled from the spec and marked as such in their doc
comments.  Concurrency (the mutex m_pSection, the worker thread and the
queued invocations) is outside the model: every operation is embedded as a
pure state transformer on the manager state, matching the effect its body
has on the protected data. -/

/-- Modelled from the spec: the maximum rating constant
DISCOVERY_MAX_PROBABILITY from the missing header discovery.h.  The spec
only requires it to be the positive upper bound of the quint8 rating range;
the concrete value is immaterial to the theorems below. -/
def DISCOVERY_MAX_PROBABILITY : Nat := 5

/-- Modelled from the spec: the u16 version tag DISCOVERY_CODE_VERSION of
the persisted stream (the value is defined in the missing header). -/
def DISCOVERY_CODE_VERSION : Nat := 1

/-- Modelled from the spec: CNetworkType is a bit-set of supported peer
networks represented here as a Nat bit mask; isNetwork is the membership
test used as pService-m_oNetworkType.isNetwork( oType ): the service
supports every network bit of the requested type. -/
def isNetwork (self oType : Nat) : Bool := oType &&& self == oType

/-- Modelled from the spec: CNetworkType.setNetwork merges network-type
support, i.e. the union of the two bit-sets. -/
def setNetwork (self oType : Nat) : Nat := self ||| oType

/-- One discovery service (the data of CDiscoveryService that
discovery.cpp reads and writes).  m_sURL stands for
m_oServiceURL.toString(); m_nServiceType for the TServiceType enum value;
m_oNetworkType for the CNetworkType bit-set; ratings and counters are the
quint8 fields, m_tLastQueried the quint32 timestamp. -/
structure CDiscoveryService where
  m_nID : Nat
  m_sURL : String
  m_nServiceType : Nat
  m_oNetworkType : Nat
  m_nRating : Nat
  m_bBanned : Bool
  m_bRunning : Bool
  m_tLastQueried : Nat
  m_nZeroRevivals : Nat
deriving DecidableEq

/-- Modelled from the spec: the factory CDiscoveryService::createService
builds a fresh service from a URL+type+network+rating tuple (spec section
3, lifecycle): no ID assigned yet, not banned, not running, no revival
history.  The rating argument is a quint8. -/
def createService (sURL : String) (eSType oNType nRating : Nat) : CDiscoveryService :=
  { m_nID := 0
    m_sURL := sURL
    m_nServiceType := eSType
    m_oNetworkType := oNType
    m_nRating := nRating % 256
    m_bBanned := false
    m_bRunning := false
    m_tLastQueried := 0
    m_nZeroRevivals := 0 }

/-- Modelled from the spec: setRating assigns a new quint8 rating to the
service (used by the revival step of the selection engine). -/
def setRating (s : CDiscoveryService) (nRating : Nat) : CDiscoveryService :=
  { s with m_nRating := nRating % 256 }

/-- The configuration values quazaaSettings.Discovery consumed by
discovery.cpp; opaque external settings per the spec (section 6). -/
structure DiscoverySettings where
  AccessThrottle : Nat
  ZeroRatingRevivalInterval : Nat
deriving DecidableEq

/-- Lookup in the ordered map m_mServices (std::map find). -/
def mapFind : List (Nat × CDiscoveryService) → Nat → Option CDiscoveryService
  | [], _ => none
  | (i, s) :: rest, k => if i = k then some s else mapFind rest k

/-- Keyed assignment m_mServices[k] = v on the ordered map (std::map
operator[]): replaces the mapped value if the key exists, otherwise
inserts keeping the key order. -/
def mapInsert : List (Nat × CDiscoveryService) → Nat → CDiscoveryService →
    List (Nat × CDiscoveryService)
  | [], k, v => [(k, v)]
  | (i, s) :: rest, k, v =>
    if k < i then (k, v) :: (i, s) :: rest
    else if k = i then (k, v) :: rest
    else (i, s) :: mapInsert rest k v

/-- Erasure m_mServices.erase(k) on the ordered map. -/
def mapErase : List (Nat × CDiscoveryService) → Nat → List (Nat × CDiscoveryService)
  | [], _ => []
  | (i, s) :: rest, k => if i = k then mapErase rest k else (i, s) :: mapErase rest k

/-- The manager state of CDiscovery that discovery.cpp manipulates: the
ordered service map m_mServices (iterated in ascending key order), the ID
recycling counter m_nLastID and the dirty flag m_bSaved (true = saved). -/
structure CDiscovery where
  m_mServices : List (Nat × CDiscoveryService)
  m_nLastID : Nat
  m_bSaved : Bool
deriving DecidableEq

/-- CDiscovery::normalizeURL: the implemented part lower-cases the URL
(QString::toLower, modelled as per-character lowercasing); the
protocol-stripping rules are a TODO in the source. -/
def normalizeURL (sURL : String) : String := ⟨sURL.data.map Char.toLower⟩

/-- Modelled from the spec: QUrl parsing in StrictMode followed by
re-encoding with toString (external Qt collaborator).  The model abstracts
validity as non-emptiness and re-encoding as the identity; only the
valid/invalid distinction and the resulting string matter to the manager. -/
def parseURL (sURL : String) : Option String :=
  if sURL = "" then none else some sURL

/-- CDiscovery::manageDuplicates: scan the existing services in map order;
on the first service with the identical URL and the same service type,
merge the new service's network types into the existing one (setNetwork)
and report a duplicate (the caller then discards the new instance).  If
the URL matches but the types differ, the source fires Q_ASSERT_X (fatal
in debug builds only); in release builds the assertion is a no-op and the
scan simply continues, which is what this function models (see
duplicateTypeConflict for the debug-build assertion condition).  The
partial-URL startsWith branches of the source are empty TODOs. -/
def manageDuplicates : List (Nat × CDiscoveryService) → CDiscoveryService →
    List (Nat × CDiscoveryService) × Bool
  | [], _ => ([], false)
  | (i, pExService) :: rest, pService =>
    if pExService.m_sURL = pService.m_sURL then
      if pService.m_nServiceType = pExService.m_nServiceType then
        ((i, { pExService with
                m_oNetworkType := setNetwork pExService.m_oNetworkType
                                             pService.m_oNetworkType }) :: rest,
         true)
      else
        let r := manageDuplicates rest pService
        ((i, pExService) :: r.1, r.2)
    else
      let r := manageDuplicates rest pService
      ((i, pExService) :: r.1, r.2)

/-- The condition under which the Q_ASSERT_X in manageDuplicates fires in
a debug build: the first existing service encountered (in map order) with
the identical URL has a different service type. -/
def duplicateTypeConflict : List (Nat × CDiscoveryService) → CDiscoveryService → Bool
  | [], _ => false
  | (_, pExService) :: rest, pService =>
    if pExService.m_sURL = pService.m_sURL then
      decide (pService.m_nServiceType ≠ pExService.m_nServiceType)
    else duplicateTypeConflict rest pService

/-- The ID scan of CDiscovery::add(TServicePtr): starting from m_nLastID,
repeatedly increment and probe the map until a free ID is found.  The
source loop terminates because the map is finite; the model uses a fuel
argument of m_mServices.length + 1, which is enough probes to reach a free
ID. -/
def scanFree (services : List (Nat × CDiscoveryService)) : Nat → Nat → Nat
  | 0, nCur => nCur + 1
  | fuel + 1, nCur =>
    if (mapFind services (nCur + 1)).isSome then scanFree services fuel (nCur + 1)
    else nCur + 1

/-- CDiscovery::add(TServicePtr&): reject a null pointer; reject (after a
possible network merge) a duplicate found by manageDuplicates; reset a
preset ID that is already in use (release behavior of the Q_ASSERT there);
assign the next free ID starting from m_nLastID + 1 when the ID is 0,
advancing m_nLastID to the assigned ID; finally store the service in the
map.  The dirty flag is not touched by the source. -/
def addPtr (st : CDiscovery) (po : Option CDiscoveryService) : CDiscovery × Bool :=
  match po with
  | none => (st, false)
  | some pService =>
    let dup := manageDuplicates st.m_mServices pService
    if dup.2 then ({ st with m_mServices := dup.1 }, false)
    else
      let p1 := if pService.m_nID ≠ 0 ∧ (mapFind dup.1 pService.m_nID).isSome
                then { pService with m_nID := 0 } else pService
      if p1.m_nID = 0 then
        let nNewID := scanFree dup.1 (dup.1.length + 1) st.m_nLastID
        ({ st with
            m_mServices := mapInsert dup.1 nNewID { p1 with m_nID := nNewID }
            m_nLastID := nNewID },
         true)
      else
        ({ st with m_mServices := mapInsert dup.1 p1.m_nID p1 }, true)

/-- CDiscovery::add(QString, TServiceType, CNetworkType, quint8): parse
the URL strictly (0 on failure), re-encode and normalize it, create a
fresh service and hand it to add(TServicePtr&); on success return
m_nLastID (set to the assigned ID inside), on failure return 0. -/
def addUrl (st : CDiscovery) (sURL : String) (eSType oNType nRating : Nat) :
    CDiscovery × Nat :=
  match parseURL sURL with
  | none => (st, 0)
  | some sEncoded =>
    let sNorm := normalizeURL sEncoded
    let pService := createService sNorm eSType oNType nRating
    let res := addPtr st (some pService)
    if res.2 then (res.1, res.1.m_nLastID) else (res.1, 0)

/-- CDiscovery::remove(TServiceID): reject ID 0 and unknown IDs; otherwise
erase the service and, when the freed ID minus one is below m_nLastID, set
m_nLastID to the freed ID minus one so that the next ID scan (which starts
at m_nLastID + 1) probes the freed ID first.  The source decrements the
local copy of the ID before the comparison and the assignment. -/
def remove (st : CDiscovery) (nID : Nat) : CDiscovery × Bool :=
  if nID = 0 then (st, false)
  else
    match mapFind st.m_mServices nID with
    | none => (st, false)
    | some _ =>
      let services := mapErase st.m_mServices nID
      if nID - 1 < st.m_nLastID then
        ({ st with m_mServices := services, m_nLastID := nID - 1 }, true)
      else
        ({ st with m_mServices := services }, true)

/-- CDiscovery::clear: empty the map and reset m_nLastID to recycle the
IDs.  The bInformGUI parameter of the source only controls GUI removal
notifications and has no effect on the manager state; the dirty flag is
not touched. -/
def clear (st : CDiscovery) : CDiscovery :=
  { st with m_mServices := [], m_nLastID := 0 }

/-- Modelled from the spec: the persisted record a single service
serializes to (CDiscoveryService::save/load live outside src/).  The
round-trip law of the spec (section 8) names ids, urls, service types,
network types and ratings as the persisted attributes. -/
structure TRecord where
  r_nID : Nat
  r_sURL : String
  r_nServiceType : Nat
  r_oNetworkType : Nat
  r_nRating : Nat
deriving DecidableEq

/-- Modelled from the spec: CDiscoveryService::save writes the persisted
attributes of a service to the stream. -/
def serializeService (s : CDiscoveryService) : TRecord :=
  { r_nID := s.m_nID
    r_sURL := s.m_sURL
    r_nServiceType := s.m_nServiceType
    r_oNetworkType := s.m_oNetworkType
    r_nRating := s.m_nRating % 256 }

/-- Modelled from the spec: CDiscoveryService::load rebuilds a service
from a persisted record; transient state (banned here modelled as not
persisted, running, revival counter, last-queried time) starts fresh. -/
def deserializeRecord (r : TRecord) : CDiscoveryService :=
  { m_nID := r.r_nID
    m_sURL := r.r_sURL
    m_nServiceType := r.r_nServiceType
    m_oNetworkType := r.r_oNetworkType
    m_nRating := r.r_nRating % 256
    m_bBanned := false
    m_bRunning := false
    m_tLastQueried := 0
    m_nZeroRevivals := 0 }

/-- Content of one data file: a well-formed stream carries the u16 version
tag and the serialized records (the u32 count of the stream is the length
of the record list); corrupt stands for a truncated or otherwise
unreadable stream whose deserialization throws. -/
inductive TStream where
  | good (nVersion : Nat) (records : List TRecord)
  | corrupt
deriving DecidableEq

/-- The three files asyncSyncSavingHelper and load work with:
discovery_backup.dat_tmp, discovery.dat and discovery_backup.dat (none
means the file does not exist). -/
structure TFileSystem where
  tmpFile : Option TStream
  primaryFile : Option TStream
  backupFile : Option TStream
deriving DecidableEq

/-- Success/failure of each fallible QFile step of asyncSyncSavingHelper,
supplied by the environment (external I/O). -/
structure TSaveEnv where
  tmpRemoveOk : Bool
  openOk : Bool
  writeOk : Bool
  primaryRemoveOk : Bool
  renameOk : Bool
  backupRemoveOk : Bool
  copyOk : Bool
deriving DecidableEq

/-- The backup steps at the end of asyncSyncSavingHelper: remove the old
backup file (failure is only a warning) and copy the primary file onto the
backup path (fails silently as a warning when the primary does not exist
or the copy fails). -/
def backupStep (fs : TFileSystem) (env : TSaveEnv) : TFileSystem :=
  let fs1 := if fs.backupFile.isSome ∧ env.backupRemoveOk
             then { fs with backupFile := none } else fs
  if fs1.primaryFile.isSome ∧ env.copyOk
  then { fs1 with backupFile := fs1.primaryFile } else fs1

/-- CDiscovery::asyncSyncSavingHelper: remove a stale temp file (abort on
failure); open the temp file for writing (abort on failure); write version
tag, count and all services to it (abort on exception, leaving a corrupt
temp file); then set m_bSaved = true.  Only if the primary file exists:
remove it (abort with false on failure) and rename the temp file onto it
(abort with false on failure) — when no primary file exists, both steps
are skipped and the written data stays in the temp file.  Finally the
backup steps run as warnings and the helper returns true. -/
def asyncSyncSavingHelper (st : CDiscovery) (fs : TFileSystem) (env : TSaveEnv) :
    CDiscovery × TFileSystem × Bool :=
  if fs.tmpFile.isSome ∧ ¬env.tmpRemoveOk then (st, fs, false)
  else
    let fs1 : TFileSystem := { fs with tmpFile := none }
    if ¬env.openOk then (st, fs1, false)
    else if ¬env.writeOk then (st, { fs1 with tmpFile := some TStream.corrupt }, false)
    else
      let stream := TStream.good DISCOVERY_CODE_VERSION
                      (st.m_mServices.map (fun pair => serializeService pair.2))
      let fs2 : TFileSystem := { fs1 with tmpFile := some stream }
      let st1 : CDiscovery := { st with m_bSaved := true }
      if fs.primaryFile.isSome then
        if ¬env.primaryRemoveOk then (st1, fs2, false)
        else
          let fs3 : TFileSystem := { fs2 with primaryFile := none }
          if ¬env.renameOk then (st1, fs3, false)
          else
            let fs4 : TFileSystem := { fs3 with primaryFile := fs2.tmpFile, tmpFile := none }
            (st1, backupStep fs4 env, true)
      else
        (st1, backupStep fs2 env, true)

/-- CDiscovery::load(QString): opening the file fails when it does not
exist, leaving the manager untouched; otherwise the manager is cleared
first and the records are deserialized and handed to add(TServicePtr&)
one by one; a deserialization exception clears the manager again and
reports failure.  A well-formed stream in the model always deserializes
fully; TStream.corrupt models the exception path. -/
def loadFile (st : CDiscovery) (file : Option TStream) : CDiscovery × Bool :=
  match file with
  | none => (st, false)
  | some TStream.corrupt => (clear st, false)
  | some (TStream.good _ records) =>
    (records.foldl (fun s r => (addPtr s (some (deserializeRecord r))).1) (clear st),
     true)

/-- CDiscovery::load(): try the primary file; on failure fall back to the
backup file (the state left behind by the failed primary attempt is kept
as the starting point of the fallback). -/
def load (st : CDiscovery) (fs : TFileSystem) : CDiscovery :=
  let primary := loadFile st fs.primaryFile
  if primary.2 then primary.1
  else (loadFile primary.1 fs.backupFile).1

/-- CDiscovery::save(bForceSaving): forced saving runs
asyncSyncSavingHelper synchronously; otherwise, when m_bSaved is set,
return true without touching the disk, and when it is not, schedule the
helper asynchronously and return false because the outcome is unknown.
The last component records whether an asynchronous save was scheduled. -/
def save (st : CDiscovery) (fs : TFileSystem) (env : TSaveEnv) (bForceSaving : Bool) :
    CDiscovery × TFileSystem × Bool × Bool :=
  if bForceSaving then
    let r := asyncSyncSavingHelper st fs env
    (r.1, r.2.1, r.2.2, false)
  else if st.m_bSaved then (st, fs, true, false)
  else (st, fs, false, true)

/-- The revival step of CDiscovery::getRandomService: a non-banned service
with rating 0 whose m_tLastQueried plus the zero-rating revival interval
(quint32 arithmetic) exceeds the current time gets its rating set to
DISCOVERY_MAX_PROBABILITY and its m_nZeroRevivals counter incremented
(quint8); banned services are skipped before this step in the source
loop. -/
def reviveService (settings : DiscoverySettings) (tNow : Nat) (s : CDiscoveryService) :
    CDiscoveryService :=
  if ¬s.m_bBanned ∧ s.m_nRating = 0 ∧
     (s.m_tLastQueried + settings.ZeroRatingRevivalInterval) % 4294967296 > tNow then
    { setRating s DISCOVERY_MAX_PROBABILITY with
        m_nZeroRevivals := (s.m_nZeroRevivals + 1) % 256 }
  else s

/-- The candidate filter of CDiscovery::getRandomService, applied after
the revival step: not banned (the source skips banned services at the top
of the loop), supporting the requested network, rating enabled (non-zero
after a possible revival), m_tLastQueried plus the access throttle
(quint32 arithmetic) above the current time, and not currently running. -/
def considerService (settings : DiscoverySettings) (tNow oNType : Nat)
    (s : CDiscoveryService) : Bool :=
  !s.m_bBanned && isNetwork s.m_oNetworkType oNType && decide (s.m_nRating ≠ 0) &&
  decide ((s.m_tLastQueried + settings.AccessThrottle) % 4294967296 > tNow) &&
  !s.m_bRunning

/-- The service map after the loop of getRandomService ran the revival
step over every entry (the source mutates the shared service objects in
place). -/
def revivedPairs (settings : DiscoverySettings) (tNow : Nat)
    (l : List (Nat × CDiscoveryService)) : List (Nat × CDiscoveryService) :=
  l.map (fun pair => (pair.1, reviveService settings tNow pair.2))

/-- The candidate list built by the loop of getRandomService, in map
iteration order: the revived services passing the candidate filter. -/
def eligibleServices (settings : DiscoverySettings) (tNow oNType : Nat)
    (l : List (Nat × CDiscoveryService)) : List CDiscoveryService :=
  ((revivedPairs settings tNow l).map Prod.snd).filter (considerService settings tNow oNType)

/-- The quint16 accumulation nTotalRating += pService-m_nRating over the
candidate list, in list order, reduced modulo 2^16 at every step. -/
def totalRating (cands : List CDiscoveryService) : Nat :=
  cands.foldl (fun acc s => (acc + s.m_nRating) % 65536) 0

/-- The subtraction walk of getRandomService: while the selected rating
exceeds the current candidate's rating, subtract and advance.  In the
source, advancing past the end of the list dereferences an invalid
iterator (undefined behavior); the model returns none there. -/
def selectWalk : List CDiscoveryService → Nat → Option CDiscoveryService
  | [], _ => none
  | pSelected :: rest, nSelectedRating =>
    if nSelectedRating > pSelected.m_nRating then
      selectWalk rest (nSelectedRating - pSelected.m_nRating)
    else some pSelected

/-- CDiscovery::getRandomService: run the revival step over all services,
build the candidate list and the quint16 total rating, return none when
the list is empty, otherwise draw qrand() mod nTotalRating plus 1 (the
source's modulo is undefined behavior when nTotalRating is 0; the model
uses Nat.mod, where n mod 0 = n) and run the subtraction walk.  The first
component is the manager state with the in-place revivals applied. -/
def getRandomService (settings : DiscoverySettings) (tNow nRand : Nat)
    (st : CDiscovery) (oNType : Nat) : CDiscovery × Option CDiscoveryService :=
  let pairs := revivedPairs settings tNow st.m_mServices
  let cands := eligibleServices settings tNow oNType st.m_mServices
  let nTotalRating := totalRating cands
  let st1 : CDiscovery := { st with m_mServices := pairs }
  if cands.isEmpty then (st1, none)
  else (st1, selectWalk cands (nRand % nTotalRating + 1))

/-- The true (unreduced) sum of the candidate ratings, used to compare the
quint16 accumulation against the mathematical sum. -/
def sumRatings (cands : List CDiscoveryService) : Nat :=
  (cands.map (fun s => s.m_nRating)).sum

/-- Pairwise distinctness of the stored service URLs: the invariant the
duplicate management of the manager maintains at insert time. -/
def urlsDistinct : List (Nat × CDiscoveryService) → Bool
  | [] => true
  | q :: rest => rest.all (fun w => w.2.m_sURL != q.2.m_sURL) && urlsDistinct rest

/-- Pairwise distinctness of the map keys: the std::map invariant of
m_mServices. -/
def keysDistinct : List (Nat × CDiscoveryService) → Bool
  | [] => true
  | q :: rest => rest.all (fun w => w.1 != q.1) && keysDistinct rest

/-! Concrete states used by the counterexamples and the witnesses. -/

/-- A working service last queried at time 95: with an access throttle of
10 and current time 100 it was used within the throttle interval. -/
def svcThrottled : CDiscoveryService :=
  { m_nID := 1, m_sURL := "a", m_nServiceType := 0, m_oNetworkType := 1,
    m_nRating := 5, m_bBanned := false, m_bRunning := false,
    m_tLastQueried := 95, m_nZeroRevivals := 0 }

/-- The same service last queried at time 0: idle far longer than the
throttle interval at current time 100. -/
def svcStale : CDiscoveryService := { svcThrottled with m_tLastQueried := 0 }

/-- A rating-0 service last queried at time 0: its revival cooldown has
long elapsed at current time 100. -/
def svcZeroStale : CDiscoveryService :=
  { svcThrottled with m_nRating := 0, m_tLastQueried := 0 }

/-- A rating-0 service last queried at time 95: still inside the revival
cooldown at current time 100. -/
def svcZeroRecent : CDiscoveryService := { svcThrottled with m_nRating := 0 }

def emptyStore : CDiscovery := { m_mServices := [], m_nLastID := 0, m_bSaved := true }

def stThrottled : CDiscovery :=
  { m_mServices := [(1, svcThrottled)], m_nLastID := 1, m_bSaved := true }

def stStale : CDiscovery :=
  { m_mServices := [(1, svcStale)], m_nLastID := 1, m_bSaved := true }

def stZeroStale : CDiscovery :=
  { m_mServices := [(1, svcZeroStale)], m_nLastID := 1, m_bSaved := true }

def svcA : CDiscoveryService := svcStale

def svcB : CDiscoveryService := { svcStale with m_nID := 2, m_sURL := "b" }

def svcC : CDiscoveryService := { svcStale with m_nID := 3, m_sURL := "c" }

/-- Three services with IDs 1, 2, 3 and m_nLastID = 3. -/
def stTriple : CDiscovery :=
  { m_mServices := [(1, svcA), (2, svcB), (3, svcC)], m_nLastID := 3, m_bSaved := true }

/-- Two services with IDs 1, 2 and m_nLastID = 2. -/
def stPair : CDiscovery :=
  { m_mServices := [(1, svcA), (2, svcB)], m_nLastID := 2, m_bSaved := true }

/-- A fresh unstored service with a URL not present in stPair. -/
def pFresh : CDiscoveryService := createService "w" 0 1 5

/-- A stored service with URL "u" and service type 3. -/
def svcU : CDiscoveryService :=
  { m_nID := 1, m_sURL := "u", m_nServiceType := 3, m_oNetworkType := 1,
    m_nRating := 5, m_bBanned := false, m_bRunning := false,
    m_tLastQueried := 0, m_nZeroRevivals := 0 }

def stU : CDiscovery := { m_mServices := [(1, svcU)], m_nLastID := 1, m_bSaved := true }

/-- A candidate sharing the URL of svcU but carrying service type 4. -/
def pConflict : CDiscoveryService := createService "u" 4 1 5

def fsEmpty : TFileSystem := { tmpFile := none, primaryFile := none, backupFile := none }

def fsPrim : TFileSystem :=
  { tmpFile := none, primaryFile := some (TStream.good DISCOVERY_CODE_VERSION []),
    backupFile := none }

def fsCorruptPrim : TFileSystem :=
  { tmpFile := none, primaryFile := some TStream.corrupt, backupFile := none }

def envAllOk : TSaveEnv :=
  { tmpRemoveOk := true, openOk := true, writeOk := true, primaryRemoveOk := true,
    renameOk := true, backupRemoveOk := true, copyOk := true }

def envRenameFail : TSaveEnv := { envAllOk with renameOk := false }

/-- 258 eligible candidates whose ratings (one of 1, 257 of 255) sum to
exactly 65536 = 2^16, so the quint16 accumulation wraps to 0. -/
def bigPairs : List (Nat × CDiscoveryService) :=
  (List.range 258).map (fun k =>
    (k + 1,
     { m_nID := k + 1, m_sURL := "s", m_nServiceType := 0, m_oNetworkType := 1,
       m_nRating := if k = 0 then 1 else 255, m_bBanned := false, m_bRunning := false,
       m_tLastQueried := 0, m_nZeroRevivals := 0 }))

def bigStore : CDiscovery := { m_mServices := bigPairs, m_nLastID := 258, m_bSaved := true }

/-! Helper lemmas. -/

lemma clear_clear (st : CDiscovery) : clear (clear st) = clear st := rfl

lemma addPtr_saved (st : CDiscovery) (po : Option CDiscoveryService) :
    (addPtr st po).1.m_bSaved = st.m_bSaved := by
  cases po with
  | none => rfl
  | some p =>
    simp only [addPtr]
    split
    · rfl
    · split
      · split
        · rfl
        · rfl
      · split
        · rfl
        · rfl

lemma foldl_addPtr_saved (records : List TRecord) :
    ∀ st : CDiscovery,
      (records.foldl (fun s r => (addPtr s (some (deserializeRecord r))).1) st).m_bSaved
        = st.m_bSaved := by
  induction records with
  | nil => intro st; rfl
  | cons r rs ih => intro st; rw [List.foldl_cons, ih, addPtr_saved]

lemma loadFile_saved (st : CDiscovery) (file : Option TStream) :
    (loadFile st file).1.m_bSaved = st.m_bSaved := by
  cases file with
  | none => rfl
  | some stream =>
    cases stream with
    | corrupt => rfl
    | good v records => exact foldl_addPtr_saved records (clear st)

lemma remove_saved (st : CDiscovery) (nID : Nat) :
    (remove st nID).1.m_bSaved = st.m_bSaved := by
  simp only [remove]
  split
  · rfl
  · split
    · rfl
    · split
      · rfl
      · rfl

lemma addUrl_saved (st : CDiscovery) (sURL : String) (eSType oNType nRating : Nat) :
    (addUrl st sURL eSType oNType nRating).1.m_bSaved = st.m_bSaved := by
  simp only [addUrl]
  split
  · rfl
  · split
    · exact addPtr_saved _ _
    · exact addPtr_saved _ _

lemma md_nomatch (p : CDiscoveryService) :
    ∀ l : List (Nat × CDiscoveryService),
      (∀ q ∈ l, q.2.m_sURL ≠ p.m_sURL) → manageDuplicates l p = (l, false) := by
  intro l
  induction l with
  | nil => intro _; rfl
  | cons q rest ih =>
    intro h
    obtain ⟨i, ex⟩ := q
    have hne : ex.m_sURL ≠ p.m_sURL := h (i, ex) (List.mem_cons_self _ _)
    have hrest : manageDuplicates rest p = (rest, false) :=
      ih (fun w hw => h w (List.mem_cons_of_mem _ hw))
    simp only [manageDuplicates, if_neg hne, hrest]

lemma mapFind_erase_self (k : Nat) :
    ∀ l : List (Nat × CDiscoveryService), mapFind (mapErase l k) k = none := by
  intro l
  induction l with
  | nil => rfl
  | cons q rest ih =>
    obtain ⟨i, s⟩ := q
    by_cases hik : i = k
    · simpa [mapErase, hik] using ih
    · simp [mapErase, mapFind, hik, ih]

lemma mem_of_mem_erase (k : Nat) (q : Nat × CDiscoveryService) :
    ∀ l : List (Nat × CDiscoveryService), q ∈ mapErase l k → q ∈ l := by
  intro l
  induction l with
  | nil => intro h; exact absurd h (List.not_mem_nil q)
  | cons w rest ih =>
    intro h
    obtain ⟨i, s⟩ := w
    by_cases hik : i = k
    · simp only [mapErase, if_pos hik] at h
      exact List.mem_cons_of_mem _ (ih h)
    · simp only [mapErase, if_neg hik] at h
      rcases List.mem_cons.mp h with h1 | h2
      · exact h1 ▸ List.mem_cons_self _ _
      · exact List.mem_cons_of_mem _ (ih h2)

lemma mapErase_length_le (k : Nat) :
    ∀ l : List (Nat × CDiscoveryService), (mapErase l k).length ≤ l.length := by
  intro l
  induction l with
  | nil => exact Nat.le_refl 0
  | cons w rest ih =>
    obtain ⟨i, s⟩ := w
    by_cases hik : i = k
    · simp only [mapErase, if_pos hik]
      exact Nat.le_succ_of_le ih
    · simp only [mapErase, if_neg hik, List.length_cons]
      exact Nat.succ_le_succ ih

lemma scanFree_immediate (l : List (Nat × CDiscoveryService)) (fuel n : Nat)
    (h : mapFind l (n + 1) = none) : scanFree l (fuel + 1) n = n + 1 := by
  simp [scanFree, h]

lemma mapFind_insert_self (k : Nat) (v : CDiscoveryService) :
    ∀ l : List (Nat × CDiscoveryService), mapFind (mapInsert l k v) k = some v := by
  intro l
  induction l with
  | nil => simp [mapInsert, mapFind]
  | cons q rest ih =>
    obtain ⟨i, s⟩ := q
    by_cases hlt : k < i
    · simp [mapInsert, hlt, mapFind]
    · by_cases heq : k = i
      · simp [mapInsert, hlt, heq, mapFind]
      · simp [mapInsert, hlt, heq, mapFind, Ne.symm heq, ih]

lemma selectWalk_mem :
    ∀ (l : List CDiscoveryService) (n : Nat) (s : CDiscoveryService),
      selectWalk l n = some s → s ∈ l := by
  intro l
  induction l with
  | nil => intro n s h; exact absurd h (by simp [selectWalk])
  | cons a rest ih =>
    intro n s h
    simp only [selectWalk] at h
    by_cases hc : n > a.m_nRating
    · rw [if_pos hc] at h
      exact List.mem_cons_of_mem _ (ih _ _ h)
    · rw [if_neg hc] at h
      cases h
      exact List.mem_cons_self _ _

lemma considerService_spec (settings : DiscoverySettings) (tNow oNType : Nat)
    (s : CDiscoveryService) (h : considerService settings tNow oNType s = true) :
    s.m_bBanned = false ∧ s.m_bRunning = false ∧ s.m_nRating ≠ 0 := by
  simp only [considerService, Bool.and_eq_true, Bool.not_eq_true',
             decide_eq_true_eq] at h
  exact ⟨h.1.1.1.1, h.2, h.1.1.2⟩

lemma mem_eligible (settings : DiscoverySettings) (tNow oNType : Nat)
    (l : List (Nat × CDiscoveryService)) (s : CDiscoveryService)
    (h : s ∈ eligibleServices settings tNow oNType l) :
    considerService settings tNow oNType s = true := by
  simp only [eligibleServices] at h
  exact (List.mem_filter.mp h).2

lemma urlsDistinct_head (i : Nat) (ex : CDiscoveryService)
    (rest : List (Nat × CDiscoveryService))
    (h : urlsDistinct ((i, ex) :: rest) = true) :
    (∀ w ∈ rest, w.2.m_sURL ≠ ex.m_sURL) ∧ urlsDistinct rest = true := by
  simp only [urlsDistinct, Bool.and_eq_true, List.all_eq_true, bne_iff_ne] at h
  exact ⟨h.1, h.2⟩

lemma keysDistinct_head (i : Nat) (ex : CDiscoveryService)
    (rest : List (Nat × CDiscoveryService))
    (h : keysDistinct ((i, ex) :: rest) = true) :
    (∀ w ∈ rest, w.1 ≠ i) ∧ keysDistinct rest = true := by
  simp only [keysDistinct, Bool.and_eq_true, List.all_eq_true, bne_iff_ne] at h
  exact ⟨h.1, h.2⟩

lemma manageDuplicates_found (p : CDiscoveryService) :
    ∀ (l : List (Nat × CDiscoveryService)) (i : Nat) (e : CDiscoveryService),
      (i, e) ∈ l → e.m_sURL = p.m_sURL → p.m_nServiceType = e.m_nServiceType →
      urlsDistinct l = true → keysDistinct l = true →
      (manageDuplicates l p).2 = true ∧
      (manageDuplicates l p).1.length = l.length ∧
      mapFind (manageDuplicates l p).1 i =
        some { e with m_oNetworkType := setNetwork e.m_oNetworkType p.m_oNetworkType } ∧
      ∀ j, j ≠ i → mapFind (manageDuplicates l p).1 j = mapFind l j := by
  intro l
  induction l with
  | nil => intro i e hmem; exact absurd hmem (List.not_mem_nil (i, e))
  | cons q rest ih =>
    intro i e hmem hurl htype hud hkd
    obtain ⟨i', ex⟩ := q
    obtain ⟨hudh, hudr⟩ := urlsDistinct_head i' ex rest hud
    obtain ⟨hkdh, hkdr⟩ := keysDistinct_head i' ex rest hkd
    by_cases hx : ex.m_sURL = p.m_sURL
    · -- the head is the unique entry with the candidate's URL
      have hhead : (i, e) = (i', ex) := by
        rcases List.mem_cons.mp hmem with h1 | h2
        · exact h1
        · exact absurd (hurl.trans hx.symm) (hudh (i, e) h2)
      cases hhead
      refine ⟨?_, ?_, ?_, ?_⟩
      · simp [manageDuplicates, hx, htype]
      · simp [manageDuplicates, hx, htype]
      · simp [manageDuplicates, hx, htype, mapFind]
      · intro j hj
        simp [manageDuplicates, hx, htype, mapFind, if_neg (Ne.symm hj)]
    · -- the head URL differs; the entry lies in the tail
      have hmem' : (i, e) ∈ rest := by
        rcases List.mem_cons.mp hmem with h1 | h2
        · cases h1
          exact absurd hurl hx
        · exact h2
      obtain ⟨ih1, ih2, ih3, ih4⟩ := ih i e hmem' hurl htype hudr hkdr
      have hii : i ≠ i' := fun h => (hkdh (i, e) hmem') (by simpa using h)
      refine ⟨?_, ?_, ?_, ?_⟩
      · simp [manageDuplicates, hx, ih1]
      · simp [manageDuplicates, hx, ih2]
      · simp [manageDuplicates, hx, mapFind, if_neg (Ne.symm hii).symm, hii.symm, ih3]
      · intro j hj
        by_cases hji : j = i'
        · subst hji
          simp [manageDuplicates, hx, mapFind]
        · simp [manageDuplicates, hx, mapFind, hji, ih4 j hj]

lemma md_conflict (p : CDiscoveryService) :
    ∀ (l : List (Nat × CDiscoveryService)) (i : Nat) (e : CDiscoveryService),
      (i, e) ∈ l → e.m_sURL = p.m_sURL → p.m_nServiceType ≠ e.m_nServiceType →
      urlsDistinct l = true →
      duplicateTypeConflict l p = true ∧ manageDuplicates l p = (l, false) := by
  intro l
  induction l with
  | nil => intro i e hmem; exact absurd hmem (List.not_mem_nil (i, e))
  | cons q rest ih =>
    intro i e hmem hurl htype hud
    obtain ⟨i', ex⟩ := q
    obtain ⟨hudh, hudr⟩ := urlsDistinct_head i' ex rest hud
    by_cases hx : ex.m_sURL = p.m_sURL
    · have hhead : (i, e) = (i', ex) := by
        rcases List.mem_cons.mp hmem with h1 | h2
        · exact h1
        · exact absurd (hurl.trans hx.symm) (hudh (i, e) h2)
      cases hhead
      have hrest : manageDuplicates rest p = (rest, false) :=
        md_nomatch p rest (fun w hw => fun hc => hudh w hw (hc.trans hx.symm))
      constructor
      · simp [duplicateTypeConflict, hx, htype]
      · simp [manageDuplicates, hx, fun h => htype h, hrest]
    · have hmem' : (i, e) ∈ rest := by
        rcases List.mem_cons.mp hmem with h1 | h2
        · cases h1
          exact absurd hurl hx
        · exact h2
      obtain ⟨ih1, ih2⟩ := ih i e hmem' hurl htype hudr
      constructor
      · simp [duplicateTypeConflict, hx, ih1]
      · simp [manageDuplicates, hx, ih2]

lemma totalRating_foldl :
    ∀ (l : List CDiscoveryService) (acc : Nat),
      acc + sumRatings l < 65536 →
      l.foldl (fun a s => (a + s.m_nRating) % 65536) acc = acc + sumRatings l := by
  intro l
  induction l with
  | nil => intro acc _; simp [sumRatings]
  | cons s rest ih =>
    intro acc h
    have hsum : sumRatings (s :: rest) = s.m_nRating + sumRatings rest := by
      simp [sumRatings]
    have hle : acc + s.m_nRating < 65536 := by
      have := h
      rw [hsum] at this
      omega
    rw [List.foldl_cons, Nat.mod_eq_of_lt hle, ih (acc + s.m_nRating) (by rw [hsum] at h; omega),
        hsum]
    omega

lemma totalRating_eq_sum (cands : List CDiscoveryService)
    (h : sumRatings cands < 65536) : totalRating cands = sumRatings cands := by
  have := totalRating_foldl cands 0 (by simpa using h)
  simpa [totalRating] using this

lemma sumRatings_pos (cands : List CDiscoveryService)
    (hne : cands ≠ []) (hpos : ∀ s ∈ cands, s.m_nRating ≠ 0) :
    0 < sumRatings cands := by
  cases cands with
  | nil => exact absurd rfl hne
  | cons s rest =>
    have h1 : s.m_nRating ≠ 0 := hpos s (List.mem_cons_self _ _)
    have : sumRatings (s :: rest) = s.m_nRating + sumRatings rest := by simp [sumRatings]
    omega

lemma selectWalk_total :
    ∀ (l : List CDiscoveryService) (n : Nat),
      1 ≤ n → n ≤ sumRatings l →
      ∃ s, selectWalk l n = some s ∧ s ∈ l := by
  intro l
  induction l with
  | nil =>
    intro n h1 h2
    simp [sumRatings] at h2
    omega
  | cons a rest ih =>
    intro n h1 h2
    have hsum : sumRatings (a :: rest) = a.m_nRating + sumRatings rest := by
      simp [sumRatings]
    by_cases hc : n > a.m_nRating
    · obtain ⟨s, hs, hmem⟩ := ih (n - a.m_nRating) (by omega) (by omega)
      exact ⟨s, by simp [selectWalk, hc, hs], List.mem_cons_of_mem _ hmem⟩
    · exact ⟨a, by simp [selectWalk, hc], List.mem_cons_self _ _⟩

/-! Claim theorems. -/

/-- C1: the claim states that a non-banned service is placed on the
candidate list only if it matches the requested network type, has a
positive rating, is not running, and its lastQueried plus the
access-throttle interval is at most the current time.  The source
condition is inverted (lastQueried + AccessThrottle > tNow): at throttle
10 and time 100, a service last used at 95 (inside the throttle window,
105 > 100) is put on the list and returned, while a service idle since
time 0 (0 + 10 <= 100) that meets every other condition of the claim is
excluded and nothing is returned. -/
theorem C1_throttle_condition_inverted :
    (svcThrottled.m_tLastQueried + 10 > 100 ∧
     considerService ⟨10, 10⟩ 100 1 svcThrottled = true ∧
     (getRandomService ⟨10, 10⟩ 100 0 stThrottled 1).2 = some svcThrottled) ∧
    (svcStale.m_bBanned = false ∧ svcStale.m_bRunning = false ∧ 0 < svcStale.m_nRating ∧
     isNetwork svcStale.m_oNetworkType 1 = true ∧
     svcStale.m_tLastQueried + 10 ≤ 100 ∧
     considerService ⟨10, 10⟩ 100 1 svcStale = false ∧
     (getRandomService ⟨10, 10⟩ 100 0 stStale 1).2 = none) := by decide

/-- C2: the claim states that a rating-0 service whose lastQueried plus
the revival interval is at most the current time is revived (rating set to
MAX_PROBABILITY, zeroRevivals incremented).  The source condition is
inverted (lastQueried + ZeroRatingRevivalInterval > tNow): at interval 10
and time 100, the zero-rating service idle since time 0 (cooldown long
elapsed) is left untouched and remains unselectable, while a zero-rating
service queried at 95 (still inside the cooldown) is the one that gets
revived. -/
theorem C2_revival_condition_inverted :
    (svcZeroStale.m_nRating = 0 ∧ svcZeroStale.m_tLastQueried + 10 ≤ 100 ∧
     reviveService ⟨10, 10⟩ 100 svcZeroStale = svcZeroStale ∧
     (getRandomService ⟨10, 10⟩ 100 0 stZeroStale 1).1 = stZeroStale ∧
     (getRandomService ⟨10, 10⟩ 100 0 stZeroStale 1).2 = none) ∧
    (svcZeroRecent.m_nRating = 0 ∧ svcZeroRecent.m_tLastQueried + 10 > 100 ∧
     (reviveService ⟨10, 10⟩ 100 svcZeroRecent).m_nRating = DISCOVERY_MAX_PROBABILITY ∧
     (reviveService ⟨10, 10⟩ 100 svcZeroRecent).m_nZeroRevivals = 1) := by decide

/-- C9: getRandomService never returns a banned, running, or zero-rating
service (every returned service passed the candidate filter, so it is not
banned, not running and has a non-zero — possibly just revived — rating),
and when the candidate list is empty it returns none. -/
theorem C9_selection_safety (settings : DiscoverySettings) (tNow nRand : Nat)
    (st : CDiscovery) (oNType : Nat) :
    (∀ s, (getRandomService settings tNow nRand st oNType).2 = some s →
        s.m_bBanned = false ∧ s.m_bRunning = false ∧ s.m_nRating ≠ 0) ∧
    (eligibleServices settings tNow oNType st.m_mServices = [] →
        (getRandomService settings tNow nRand st oNType).2 = none) := by
  constructor
  · intro s h
    simp only [getRandomService] at h
    by_cases hc : (eligibleServices settings tNow oNType st.m_mServices).isEmpty
    · rw [if_pos hc] at h
      exact absurd h (by simp)
    · rw [if_neg hc] at h
      have hmem := selectWalk_mem _ _ _ h
      exact considerService_spec _ _ _ _ (mem_eligible _ _ _ _ _ hmem)
  · intro h
    simp [getRandomService, h]

/-- C9 witness: at throttle 10 and time 100, the store holding only the
recently-used service svcThrottled returns it (so the theorem yields its
safety properties), and the empty store returns none. -/
theorem C9_selection_safety_witness :
    (svcThrottled.m_bBanned = false ∧ svcThrottled.m_bRunning = false ∧
      svcThrottled.m_nRating ≠ 0) ∧
    (getRandomService ⟨10, 10⟩ 100 0 emptyStore 1).2 = none :=
  ⟨(C9_selection_safety ⟨10, 10⟩ 100 0 stThrottled 1).1 svcThrottled (by decide),
   (C9_selection_safety ⟨10, 10⟩ 100 0 emptyStore 1).2 rfl⟩

/-- C10 counterexample: the claim states that nTotalRating is nonzero for
every non-empty candidate list.  With 258 eligible candidates whose
ratings sum to exactly 2^16 (one rating 1 and 257 ratings 255), the
quint16 accumulation wraps around to 0 while the candidate list is
non-empty, so the subsequent qrand() modulo nTotalRating divides by
zero. -/
theorem C10_total_rating_overflow_counterexample :
    eligibleServices ⟨1, 1⟩ 0 1 bigStore.m_mServices ≠ [] ∧
    totalRating (eligibleServices ⟨1, 1⟩ 0 1 bigStore.m_mServices) = 0 := by
  constructor
  · intro h
    have hlen : (eligibleServices ⟨1, 1⟩ 0 1 bigStore.m_mServices).length = 258 := by decide
    rw [h] at hlen
    exact absurd hlen (by decide)
  · decide

/-- C10 amended: whenever the candidate list is non-empty and the true sum
of the candidate ratings is below 2^16 (so the quint16 accumulation does
not wrap), nTotalRating equals that sum and is nonzero, the modulo is
well-defined and the subtraction walk terminates at an element of the
candidate list. -/
theorem C10_total_rating_amended (settings : DiscoverySettings)
    (tNow oNType nRand : Nat) (l : List (Nat × CDiscoveryService))
    (hne : eligibleServices settings tNow oNType l ≠ [])
    (hsum : sumRatings (eligibleServices settings tNow oNType l) < 65536) :
    totalRating (eligibleServices settings tNow oNType l) =
      sumRatings (eligibleServices settings tNow oNType l) ∧
    totalRating (eligibleServices settings tNow oNType l) ≠ 0 ∧
    ∃ s, selectWalk (eligibleServices settings tNow oNType l)
          (nRand % totalRating (eligibleServices settings tNow oNType l) + 1) = some s ∧
         s ∈ eligibleServices settings tNow oNType l := by
  have hpos : ∀ s ∈ eligibleServices settings tNow oNType l, s.m_nRating ≠ 0 :=
    fun s hs => (considerService_spec _ _ _ _ (mem_eligible _ _ _ _ _ hs)).2.2
  have hspos := sumRatings_pos _ hne hpos
  have heq := totalRating_eq_sum _ hsum
  have htpos : totalRating (eligibleServices settings tNow oNType l) ≠ 0 := by omega
  refine ⟨heq, htpos, ?_⟩
  have hlt := Nat.mod_lt nRand (Nat.pos_of_ne_zero htpos)
  exact selectWalk_total _ _ (Nat.le_add_left 1 _) (by omega)

/-- C10 witness: the single-candidate store stThrottled has candidate
rating sum 5 below 2^16, so the amended theorem applies with random draw
7. -/
theorem C10_total_rating_amended_witness :
    totalRating (eligibleServices ⟨10, 10⟩ 100 1 stThrottled.m_mServices) =
      sumRatings (eligibleServices ⟨10, 10⟩ 100 1 stThrottled.m_mServices) ∧
    totalRating (eligibleServices ⟨10, 10⟩ 100 1 stThrottled.m_mServices) ≠ 0 ∧
    ∃ s, selectWalk (eligibleServices ⟨10, 10⟩ 100 1 stThrottled.m_mServices)
          (7 % totalRating (eligibleServices ⟨10, 10⟩ 100 1 stThrottled.m_mServices) + 1) =
          some s ∧
         s ∈ eligibleServices ⟨10, 10⟩ 100 1 stThrottled.m_mServices :=
  C10_total_rating_amended ⟨10, 10⟩ 100 1 7 stThrottled.m_mServices (by decide) (by decide)

/-- C3 counterexample: the claim states that the dirty flag
(m_bSaved == false) is set by every successful mutating operation, so that
save(false) returns true without I/O only when no mutation occurred since
the last successful save.  In the code, a successful add leaves m_bSaved
untouched: starting from a saved empty store, add succeeds (ID 1) yet
m_bSaved stays true, and the subsequent save(false) returns true without
scheduling any I/O although a mutation just occurred. -/
theorem C3_dirty_flag_counterexample :
    (addUrl emptyStore "x" 0 1 5).2 = 1 ∧
    ((addUrl emptyStore "x" 0 1 5).1).m_bSaved = true ∧
    (save (addUrl emptyStore "x" 0 1 5).1 fsEmpty envAllOk false).2.2.1 = true ∧
    (save (addUrl emptyStore "x" 0 1 5).1 fsEmpty envAllOk false).2.2.2 = false := by
  decide

/-- C3 amended: none of the mutating operations of discovery.cpp (add by
URL, add by pointer, remove, clear, load) ever modifies m_bSaved;
save(false) returns true without any I/O whenever m_bSaved is true (which
therefore does not imply that no mutation occurred); and m_bSaved is set
to true by the synchronous saving helper as soon as the stream write
succeeds, even when the subsequent primary-file rotation fails and the
helper returns false. -/
theorem C3_dirty_flag_amended (st : CDiscovery) (fs : TFileSystem) (env : TSaveEnv)
    (sURL : String) (eSType oNType nRating nID : Nat)
    (po : Option CDiscoveryService) (file : Option TStream) :
    ((addUrl st sURL eSType oNType nRating).1.m_bSaved = st.m_bSaved) ∧
    ((addPtr st po).1.m_bSaved = st.m_bSaved) ∧
    ((remove st nID).1.m_bSaved = st.m_bSaved) ∧
    ((clear st).m_bSaved = st.m_bSaved) ∧
    ((loadFile st file).1.m_bSaved = st.m_bSaved) ∧
    (st.m_bSaved = true → save st fs env false = (st, fs, true, false)) ∧
    (env.tmpRemoveOk = true → env.openOk = true → env.writeOk = true →
     fs.primaryFile.isSome = true → env.primaryRemoveOk = true → env.renameOk = false →
     (asyncSyncSavingHelper st fs env).1.m_bSaved = true ∧
     (asyncSyncSavingHelper st fs env).2.2 = false) := by
  refine ⟨addUrl_saved st sURL eSType oNType nRating, addPtr_saved st po,
          remove_saved st nID, rfl, loadFile_saved st file, ?_, ?_⟩
  · intro h
    simp [save, h]
  · intro h1 h2 h3 h4 h5 h6
    simp [asyncSyncSavingHelper, h1, h2, h3, h4, h5, h6]

/-- C3 amended witness: the saved empty store's save(false) is a no-op
returning true, and the helper under a rename failure still sets m_bSaved
while returning false. -/
theorem C3_dirty_flag_amended_witness :
    save emptyStore fsEmpty envAllOk false = (emptyStore, fsEmpty, true, false) ∧
    (asyncSyncSavingHelper stThrottled fsPrim envRenameFail).1.m_bSaved = true ∧
    (asyncSyncSavingHelper stThrottled fsPrim envRenameFail).2.2 = false :=
  ⟨(C3_dirty_flag_amended emptyStore fsEmpty envAllOk "x" 0 0 0 0 none none).2.2.2.2.2.1 rfl,
   ((C3_dirty_flag_amended stThrottled fsPrim envRenameFail "x" 0 0 0 0 none
      none).2.2.2.2.2.2 rfl rfl rfl rfl rfl rfl).1,
   ((C3_dirty_flag_amended stThrottled fsPrim envRenameFail "x" 0 0 0 0 none
      none).2.2.2.2.2.2 rfl rfl rfl rfl rfl rfl).2⟩

/-- C4 counterexample: the claim states that a successful remove of an ID
lower than m_nLastID sets m_nLastID to the freed ID itself.  Removing ID 2
from the three-service store (m_nLastID = 3) succeeds, but m_nLastID
becomes 1 — the freed ID minus one — not 2. -/
theorem C4_lastid_counterexample :
    (remove stTriple 2).2 = true ∧ 2 < stTriple.m_nLastID ∧
    ((remove stTriple 2).1).m_nLastID = 1 ∧
    ((remove stTriple 2).1).m_nLastID ≠ 2 := by decide

/-- C4 amended: a successful remove of an ID whose predecessor is below
m_nLastID sets m_nLastID to the freed ID minus one; because the ID scan of
add starts at m_nLastID + 1, this makes the freed ID the first one probed,
so removing the service whose ID equals m_nLastID and then adding a fresh
service (ID 0, URL not present) reuses exactly the freed ID. -/
theorem C4_id_recycling_amended (st : CDiscovery) (nID : Nat)
    (s p : CDiscoveryService)
    (hfind : mapFind st.m_mServices nID = some s) (hpos : 0 < nID) :
    (nID - 1 < st.m_nLastID →
      (remove st nID).2 = true ∧ (remove st nID).1.m_nLastID = nID - 1) ∧
    (nID = st.m_nLastID → p.m_nID = 0 →
      (∀ q ∈ st.m_mServices, q.2.m_sURL ≠ p.m_sURL) →
      (addPtr (remove st nID).1 (some p)).2 = true ∧
      (addPtr (remove st nID).1 (some p)).1.m_nLastID = nID ∧
      mapFind (addPtr (remove st nID).1 (some p)).1.m_mServices nID =
        some { p with m_nID := nID }) := by
  have hnz : nID ≠ 0 := by omega
  constructor
  · intro hlt
    simp [remove, hnz, hfind, hlt]
  · intro hlast hpid hurl
    have hlt : nID - 1 < st.m_nLastID := by omega
    have hrem : (remove st nID).1 =
        { st with m_mServices := mapErase st.m_mServices nID, m_nLastID := nID - 1 } := by
      simp [remove, hnz, hfind, hlt]
    rw [hrem]
    have hmd : manageDuplicates (mapErase st.m_mServices nID) p =
        (mapErase st.m_mServices nID, false) :=
      md_nomatch p _ (fun q hq => hurl q (mem_of_mem_erase nID q st.m_mServices hq))
    have hfree : mapFind (mapErase st.m_mServices nID) ((nID - 1) + 1) = none := by
      rw [Nat.sub_add_cancel hpos]
      exact mapFind_erase_self nID st.m_mServices
    have hscan : scanFree (mapErase st.m_mServices nID)
        ((mapErase st.m_mServices nID).length + 1) (nID - 1) = nID := by
      rw [scanFree_immediate _ _ _ hfree, Nat.sub_add_cancel hpos]
    refine ⟨?_, ?_, ?_⟩ <;>
      simp [addPtr, hmd, hpid, hscan, mapFind_insert_self]

/-- C4 amended witness: in the two-service store (IDs 1 and 2,
m_nLastID = 2), removing ID 2 sets m_nLastID to 1 and the following add of
a fresh service reassigns ID 2. -/
theorem C4_id_recycling_amended_witness :
    ((remove stPair 2).2 = true ∧ (remove stPair 2).1.m_nLastID = 1) ∧
    ((addPtr (remove stPair 2).1 (some pFresh)).2 = true ∧
     (addPtr (remove stPair 2).1 (some pFresh)).1.m_nLastID = 2 ∧
     mapFind (addPtr (remove stPair 2).1 (some pFresh)).1.m_mServices 2 =
       some { pFresh with m_nID := 2 }) :=
  ⟨(C4_id_recycling_amended stPair 2 svcB pFresh (by decide) (by decide)).1 (by decide),
   (C4_id_recycling_amended stPair 2 svcB pFresh (by decide) (by decide)).2 rfl rfl
     (by decide)⟩

/-- C5: the claim states that a forced synchronous save followed by a load
(with the store cleared in between) reproduces an equivalent store.  The
helper only renames the temp file onto the primary path inside the branch
taken when the primary file already exists: starting with no primary file
and every I/O step succeeding, the forced save of the one-service store
returns true but leaves the serialized data in the temp file and creates
no primary file, so the subsequent load finds neither primary nor backup
and the store stays empty. -/
theorem C5_roundtrip_fails_without_primary :
    (asyncSyncSavingHelper stThrottled fsEmpty envAllOk).2.2 = true ∧
    (asyncSyncSavingHelper stThrottled fsEmpty envAllOk).2.1.primaryFile = none ∧
    (asyncSyncSavingHelper stThrottled fsEmpty envAllOk).2.1.tmpFile =
      some (TStream.good DISCOVERY_CODE_VERSION [serializeService svcThrottled]) ∧
    (load (clear (asyncSyncSavingHelper stThrottled fsEmpty envAllOk).1)
       (asyncSyncSavingHelper stThrottled fsEmpty envAllOk).2.1).m_mServices = [] ∧
    stThrottled.m_mServices ≠ [] := by decide

/-- C6: adding a URL that (after strict parsing and normalization) is
identical to the URL of a stored service of the same service type returns
0, creates no new entry, merges the network-type bit-set of the candidate
into the existing entry (union) and leaves every other entry unchanged. -/
theorem C6_duplicate_add_merges (st : CDiscovery) (sURL sEncoded : String)
    (eSType oNType nRating i : Nat) (e : CDiscoveryService)
    (hparse : parseURL sURL = some sEncoded)
    (hmem : (i, e) ∈ st.m_mServices)
    (hurl : e.m_sURL = normalizeURL sEncoded)
    (htype : e.m_nServiceType = eSType)
    (hud : urlsDistinct st.m_mServices = true)
    (hkd : keysDistinct st.m_mServices = true) :
    (addUrl st sURL eSType oNType nRating).2 = 0 ∧
    (addUrl st sURL eSType oNType nRating).1.m_mServices.length =
      st.m_mServices.length ∧
    mapFind (addUrl st sURL eSType oNType nRating).1.m_mServices i =
      some { e with m_oNetworkType := setNetwork e.m_oNetworkType oNType } ∧
    ∀ j, j ≠ i → mapFind (addUrl st sURL eSType oNType nRating).1.m_mServices j =
      mapFind st.m_mServices j := by
  obtain ⟨h1, h2, h3, h4⟩ :=
    manageDuplicates_found (createService (normalizeURL sEncoded) eSType oNType nRating)
      st.m_mServices i e hmem (by simpa [createService] using hurl)
      (by simp [createService, htype]) hud hkd
  have haddPtr : addPtr st
      (some (createService (normalizeURL sEncoded) eSType oNType nRating)) =
      ({ st with m_mServices := (manageDuplicates st.m_mServices
          (createService (normalizeURL sEncoded) eSType oNType nRating)).1 }, false) := by
    simp [addPtr, h1]
  have hresult : addUrl st sURL eSType oNType nRating =
      ({ st with m_mServices := (manageDuplicates st.m_mServices
          (createService (normalizeURL sEncoded) eSType oNType nRating)).1 }, 0) := by
    simp [addUrl, hparse, haddPtr]
  rw [hresult]
  exact ⟨rfl, h2, h3, fun j hj => h4 j hj⟩

/-- C6 witness: adding URL "u" with service type 3 and network bit 2 to
the store holding svcU (URL "u", type 3, network bit 1) returns 0, keeps
one entry, and the stored entry now carries network bits 1 and 2. -/
theorem C6_duplicate_add_merges_witness :
    (addUrl stU "u" 3 2 5).2 = 0 ∧
    (addUrl stU "u" 3 2 5).1.m_mServices.length = stU.m_mServices.length ∧
    mapFind (addUrl stU "u" 3 2 5).1.m_mServices 1 =
      some { svcU with m_oNetworkType := setNetwork svcU.m_oNetworkType 2 } ∧
    mapFind (addUrl stU "u" 3 2 5).1.m_mServices 2 = mapFind stU.m_mServices 2 :=
  have h := C6_duplicate_add_merges stU "u" "u" 3 2 5 1 svcU (by decide) (by decide)
    (by decide) (by decide) (by decide) (by decide)
  ⟨h.1, h.2.1, h.2.2.1, h.2.2.2 2 (by decide)⟩

/-- C7 counterexample: the claim states that in production builds a
candidate sharing the URL of a stored service but carrying a different
service type is kept out of the store.  Adding URL "u" with service type 4
to the store holding svcU (URL "u", type 3) returns the fresh ID 2 and the
store then holds two entries — the release build falls through the
assertion and inserts the conflicting candidate (the existing entry does
remain unchanged). -/
theorem C7_type_conflict_counterexample :
    (addUrl stU "u" 4 1 5).2 = 2 ∧
    (addUrl stU "u" 4 1 5).1.m_mServices.length = 2 ∧
    mapFind (addUrl stU "u" 4 1 5).1.m_mServices 1 = some svcU := by decide

/-- C7 amended: when a candidate shares the URL of a stored service but
not its service type, the debug-build assertion condition holds (fatal
assertion), while the release-build duplicate scan reports no duplicate
and leaves the stored services unchanged — no error is logged there — and
add then accepts the candidate into the store alongside the existing
service. -/
theorem C7_type_conflict_amended (st : CDiscovery) (p : CDiscoveryService)
    (i : Nat) (e : CDiscoveryService)
    (hmem : (i, e) ∈ st.m_mServices) (hurl : e.m_sURL = p.m_sURL)
    (htype : p.m_nServiceType ≠ e.m_nServiceType) (hpid : p.m_nID = 0)
    (hud : urlsDistinct st.m_mServices = true) :
    duplicateTypeConflict st.m_mServices p = true ∧
    manageDuplicates st.m_mServices p = (st.m_mServices, false) ∧
    (addPtr st (some p)).2 = true := by
  obtain ⟨h1, h2⟩ := md_conflict p st.m_mServices i e hmem hurl htype hud
  refine ⟨h1, h2, ?_⟩
  simp [addPtr, h2, hpid]

/-- C7 amended witness: the candidate pConflict (URL "u", type 4) against
the store holding svcU (URL "u", type 3). -/
theorem C7_type_conflict_amended_witness :
    duplicateTypeConflict stU.m_mServices pConflict = true ∧
    manageDuplicates stU.m_mServices pConflict = (stU.m_mServices, false) ∧
    (addPtr stU (some pConflict)).2 = true :=
  C7_type_conflict_amended stU pConflict 1 svcU (by decide) (by decide) (by decide)
    (by decide) (by decide)

/-- C8 counterexample: the claim states that when both load attempts fail
the store is left empty.  When neither the primary nor the backup file can
be opened (both missing), the non-empty store is left exactly as it was —
loading only clears once a file has been opened. -/
theorem C8_load_counterexample :
    stThrottled.m_mServices ≠ [] ∧
    load stThrottled fsEmpty = stThrottled := by decide

/-- C8 amended: an open failure leaves the manager untouched; a
deserialization failure clears it; a successful load of a well-formed
stream starts from a cleared manager (replace, never merge); when both the
primary and the backup file fail to open, the store keeps its previous
content (empty only if it already was); when the primary fails
mid-deserialization and the backup is missing, the store ends empty. -/
theorem C8_load_amended (st : CDiscovery) (fs : TFileSystem) (nVersion : Nat)
    (records : List TRecord) :
    (loadFile st none = (st, false)) ∧
    (loadFile st (some TStream.corrupt) = (clear st, false)) ∧
    (loadFile st (some (TStream.good nVersion records)) =
       loadFile (clear st) (some (TStream.good nVersion records))) ∧
    (fs.primaryFile = none → fs.backupFile = none → load st fs = st) ∧
    (fs.primaryFile = some TStream.corrupt → fs.backupFile = none →
       (load st fs).m_mServices = []) := by
  refine ⟨rfl, rfl, ?_, ?_, ?_⟩
  · simp [loadFile, clear_clear]
  · intro h1 h2
    simp [load, loadFile, h1, h2]
  · intro h1 h2
    simp [load, loadFile, h1, h2, clear]

/-- C8 amended witness: the one-service store with both files missing
stays as it is; with a corrupt primary and no backup it ends empty. -/
theorem C8_load_amended_witness :
    load stThrottled fsEmpty = stThrottled ∧
    (load stThrottled fsCorruptPrim).m_mServices = [] :=
  ⟨(C8_load_amended stThrottled fsEmpty 0 []).2.2.2.1 rfl rfl,
   (C8_load_amended stThrottled fsCorruptPrim 0 []).2.2.2.2 rfl rfl⟩
